import Mathlib

/-!
Verification of the orchestration core of the MusicBuddy voice assistant
(`server-agents.js`): the message bus, the A2A task lifecycle manager, the
response gate, the voice-activity segmenter flush, and the audio energy
computation.  Each definition is a shallow embedding of the corresponding
JavaScript function; side-effecting code is modelled by explicit state
passing, JavaScript exceptions by `Except`, and `Date.now()` by an explicit
`now : Nat` argument.
-/

namespace MusicBuddy

/-! ## Message bus (`MessageBus.publish`, server-agents.js lines 156-176)

`publish` runs `handlers.forEach(handler => handler(data))`.  A handler is
modelled as a function returning `Except ε Unit`: `Except.error e` models a
synchronous `throw e`.  JavaScript `forEach` stops iterating when the callback
throws and lets the exception propagate out of `publish`, so the embedding
returns the list of indices of the handlers that were actually invoked
together with the propagated exception, if any. -/

def publishRun {α ε : Type} : List (α → Except ε Unit) → α → Nat → List Nat × Option ε
  | [], _, _ => ([], none)
  | h :: rest, data, i =>
    match h data with
    | Except.error e => ([i], some e)
    | Except.ok _ =>
      let r := publishRun rest data (i + 1)
      (i :: r.1, r.2)

/-- `MessageBus.publish`: invoke the registered handlers for a topic in
subscription order.  First component: indices of handlers that were invoked;
second component: the exception that escaped to the publisher, if any. -/
def publish {α ε : Type} (handlers : List (α → Except ε Unit)) (data : α) :
    List Nat × Option ε :=
  publishRun handlers data 0

/-! ## A2A task lifecycle (`A2ATask`, server-agents.js lines 241-287) -/

inductive TaskState where
  | submitted
  | working
  | inputRequired
  | completed
  | failed
  | canceled
deriving DecidableEq

/-- One entry of a task's append-only history, as pushed by
`A2ATask.updateState`. -/
structure HistoryEntry where
  state : TaskState
  timestamp : Nat
  message : Option String
deriving DecidableEq

/-- `A2ATask`: the task record.  `V` is the type of the opaque JSON payloads
(input and output).  The constructor (modelled by `A2ATask.create`) sets
`state = SUBMITTED` and `history = []`. -/
structure A2ATask (V : Type) where
  id : String
  sessionId : String
  skillId : String
  input : V
  state : TaskState
  output : Option V
  error : Option String
  createdAt : Nat
  updatedAt : Nat
  history : List HistoryEntry
deriving DecidableEq

/-- The `A2ATask` constructor.  The JavaScript constructor draws the id from
`generateTaskId()` and both timestamps from `Date.now()`; they are explicit
arguments here. -/
def A2ATask.create {V : Type} (id : String) (skillId : String) (input : V)
    (sessionId : String) (now : Nat) : A2ATask V :=
  { id := id
    sessionId := sessionId
    skillId := skillId
    input := input
    state := TaskState.submitted
    output := none
    error := none
    createdAt := now
    updatedAt := now
    history := [] }

/-- `A2ATask.updateState`: set the state, refresh `updatedAt` and append a
history entry. -/
def A2ATask.updateState {V : Type} (t : A2ATask V) (newState : TaskState)
    (now : Nat) (message : Option String) : A2ATask V :=
  { t with
    state := newState
    updatedAt := now
    history := t.history ++ [{ state := newState, timestamp := now, message := message }] }

/-- `A2ATask.complete`: store the output and transition to `COMPLETED`. -/
def A2ATask.complete {V : Type} (t : A2ATask V) (output : V) (now : Nat) : A2ATask V :=
  A2ATask.updateState { t with output := some output } TaskState.completed now none

/-- `A2ATask.fail`: store the error and transition to `FAILED`, recording the
error as the history entry's message. -/
def A2ATask.fail {V : Type} (t : A2ATask V) (error : String) (now : Nat) : A2ATask V :=
  A2ATask.updateState { t with error := some error } TaskState.failed now (some error)

/-- A skill handler as invoked by `A2AProtocolHandler.sendTask`:
`await handler(input, sessionId, task)`.  `Except.error msg` models a thrown
or rejected error whose `.message` is `msg` (both are caught by the handler's
`try`/`catch`). -/
def SkillHandler (V : Type) : Type := V → String → A2ATask V → Except String V

/-- `A2AProtocolHandler.sendTask` (lines 361-385): create the task; if no
handler is registered for the skill, fail it with
`"No handler for skill: <id>"`; otherwise move it to `WORKING`, run the
handler, and complete or fail the task with the handler's result or error
message. -/
def sendTask {V : Type} (agentHandlers : String → Option (SkillHandler V))
    (taskId : String) (skillId : String) (input : V) (sessionId : String)
    (now : Nat) : A2ATask V :=
  let task := A2ATask.create taskId skillId input sessionId now
  match agentHandlers skillId with
  | none => A2ATask.fail task (String.append "No handler for skill: " skillId) now
  | some handler =>
    let task := A2ATask.updateState task TaskState.working now none
    match handler input sessionId task with
    | Except.ok result => A2ATask.complete task result now
    | Except.error msg => A2ATask.fail task msg now

/-- `A2AProtocolHandler.handleTaskComplete` (lines 405-412): look the task up
in the task map and call `complete` on it, with no check of its current
state. -/
def handleTaskComplete {V : Type} (tasks : String → Option (A2ATask V))
    (taskId : String) (output : V) (now : Nat) : String → Option (A2ATask V) :=
  match tasks taskId with
  | none => tasks
  | some task => fun tid =>
      if tid = taskId then some (A2ATask.complete task output now) else tasks tid

/-- `A2AProtocolHandler.handleTaskFail` (lines 414-421): look the task up in
the task map and call `fail` on it, with no check of its current state. -/
def handleTaskFail {V : Type} (tasks : String → Option (A2ATask V))
    (taskId : String) (error : String) (now : Nat) : String → Option (A2ATask V) :=
  match tasks taskId with
  | none => tasks
  | some task => fun tid =>
      if tid = taskId then some (A2ATask.fail task error now) else tasks tid

/-! ## REST / JSON-RPC lookup endpoints (server-agents.js lines 2000-2098)

A structured error response `A2AMessage.createError(id, code, message)` is
modelled as `Except.error (code, message)`. -/

/-- `GET /api/a2a/tasks/:taskId` (lines 2037-2048): unknown task ids answer
with error code `-32001` and message `"Task not found"`. -/
def apiGetTaskEndpoint {V : Type} (tasks : String → Option (A2ATask V))
    (taskId : String) : Except (Int × String) (A2ATask V) :=
  match tasks taskId with
  | none => Except.error (-32001, "Task not found")
  | some t => Except.ok t

/-- `POST /api/a2a/rpc`, method `tasks/get` (lines 2070-2073 and 2093-2097):
an unknown task id throws `Error("Task not found")`, which the surrounding
`catch` converts to error code `-32603`. -/
def rpcTasksGet {V : Type} (tasks : String → Option (A2ATask V))
    (taskId : String) : Except (Int × String) (A2ATask V) :=
  match tasks taskId with
  | none => Except.error (-32603, "Task not found")
  | some t => Except.ok t

/-- `GET /api/a2a/agents/:agentId` (lines 2000-2011): unknown agent ids answer
with error code `-32001` and message `"Agent not found"`. -/
def apiGetAgentEndpoint {C : Type} (agents : String → Option C)
    (agentId : String) : Except (Int × String) C :=
  match agents agentId with
  | none => Except.error (-32001, "Agent not found")
  | some c => Except.ok c

/-! ## Response manager (`ResponseManager`, server-agents.js lines 434-464) -/

/-- A value of the `pendingResponses` map: `{ locked: boolean, queue: [] }`
(the queue is never used by the source). -/
structure PendingEntry where
  locked : Bool
deriving DecidableEq

/-- The two maps of `ResponseManager`, both keyed by session id. -/
structure ResponseManagerState where
  pendingResponses : String → Option PendingEntry
  lastResponseTime : String → Option Nat

/-- The freshly constructed manager: both maps empty. -/
def ResponseManagerState.init : ResponseManagerState :=
  { pendingResponses := fun _ => none
    lastResponseTime := fun _ => none }

/-- `ResponseManager.canRespond`: true unless an entry exists and is locked. -/
def canRespond (sessionId : String) (rm : ResponseManagerState) : Bool :=
  match rm.pendingResponses sessionId with
  | none => true
  | some pending => !pending.locked

/-- `ResponseManager.lock`: create/overwrite the entry as locked. -/
def ResponseManagerState.lock (rm : ResponseManagerState) (sessionId : String) :
    ResponseManagerState :=
  { rm with
    pendingResponses := fun sid =>
      if sid = sessionId then some { locked := true } else rm.pendingResponses sid }

/-- `ResponseManager.unlock`: delete the pending entry and record
`lastResponseTime = Date.now()` (the explicit `now`). -/
def ResponseManagerState.unlock (rm : ResponseManagerState) (sessionId : String)
    (now : Nat) : ResponseManagerState :=
  { pendingResponses := fun sid =>
      if sid = sessionId then none else rm.pendingResponses sid
    lastResponseTime := fun sid =>
      if sid = sessionId then some now else rm.lastResponseTime sid }

/-- `ResponseManager.shouldDebounce`: `if (!lastTime) return false;
return (Date.now() - lastTime) < minGapMs`.  JavaScript truthiness makes a
stored timestamp of `0` behave like an absent one, hence the extra
`lastTime = 0` branch; the subtraction is over JavaScript numbers, modelled by
`Int`. -/
def shouldDebounce (sessionId : String) (minGapMs : Int) (now : Nat)
    (rm : ResponseManagerState) : Bool :=
  match rm.lastResponseTime sessionId with
  | none => false
  | some lastTime =>
    if lastTime = 0 then false
    else decide (((now : Int) - (lastTime : Int)) < minGapMs)

/-- A call on the response gate: `lock(sessionId)` or `unlock(sessionId)` (the
latter with the `Date.now()` it observes). -/
inductive GateOp where
  | lock (sessionId : String)
  | unlock (sessionId : String) (now : Nat)
deriving DecidableEq

/-- Apply one gate call to the manager state. -/
def GateOp.apply (rm : ResponseManagerState) : GateOp → ResponseManagerState
  | GateOp.lock s => rm.lock s
  | GateOp.unlock s now => rm.unlock s now

/-- Run a sequence of gate calls from the freshly constructed manager. -/
def runGateOps (ops : List GateOp) : ResponseManagerState :=
  ops.foldl GateOp.apply ResponseManagerState.init

/-- Some prior `lock(s)` has no matching `unlock(s)` yet: the call sequence
splits as `pre ++ lock s :: post` with no `unlock s` anywhere in `post`. -/
def unmatchedLock (s : String) (ops : List GateOp) : Prop :=
  ∃ pre post, ops = pre ++ GateOp.lock s :: post ∧ ∀ now, GateOp.unlock s now ∉ post

/-! ## Voice-activity segmenter flush (`SpeechAgent.processAudio`,
server-agents.js lines 1638-1696)

The per-session state relevant to a flush: the `isProcessing` re-entrancy
flag and the session's frame buffer (`audioBuffers.get(sessionId)`), an
ordered list of byte frames.  `Buffer.concat` is `List.flatten`.  The
"utterance-ready" event is the downstream processing of the concatenated
buffer (the `listening_state: processing` notification followed by
transcription); the embedding returns it as the second component.  The
source discards a concatenated buffer of fewer than 3200 bytes
(`if (audioBuffer.length < 3200)`), i.e. the minimum byte-length floor is
3199: strictly larger buffers are emitted. -/

structure SpeechSessionState where
  isProcessing : Bool
  audioBuffer : List (List Nat)
deriving DecidableEq

/-- `SpeechAgent.processAudio` for one session: guard on `isProcessing`,
swap the buffer out, and emit the concatenation unless it is shorter than
3200 bytes. -/
def processAudio (st : SpeechSessionState) : SpeechSessionState × Option (List Nat) :=
  if st.isProcessing then (st, none)
  else
    let chunks := st.audioBuffer
    if chunks.length = 0 then ({ isProcessing := false, audioBuffer := st.audioBuffer }, none)
    else
      let audioBuffer := chunks.flatten
      if audioBuffer.length < 3200 then ({ isProcessing := false, audioBuffer := [] }, none)
      else ({ isProcessing := false, audioBuffer := [] }, some audioBuffer)

/-! ## Audio energy (`SpeechAgent.calculateAudioLevel`,
server-agents.js lines 1548-1555)

The frame is decoded as 16-bit signed samples (`Int16Array`), modelled as a
list of integers; `Math.sqrt` is modelled by `Real.sqrt`. -/

/-- The sum `sum += samples[i] * samples[i]` accumulated over the frame. -/
def sumSquares (samples : List ℤ) : ℤ :=
  (samples.map (fun s => s * s)).sum

/-- `SpeechAgent.calculateAudioLevel`:
`Math.sqrt(sum / samples.length) / 32768`. -/
noncomputable def calculateAudioLevel (samples : List ℤ) : ℝ :=
  Real.sqrt ((sumSquares samples : ℝ) / (samples.length : ℝ)) / 32768

/-! ## Theorems -/

/-- Helper: `publishRun` on a handler list that splits as
`pre ++ thrower :: rest`, where every handler in `pre` succeeds and the
thrower throws `e`, invokes exactly the handlers up to and including the
thrower and propagates `e`. -/
theorem publishRun_stops {α ε : Type} (pre : List (α → Except ε Unit))
    (h : α → Except ε Unit) (rest : List (α → Except ε Unit)) (d : α) (e : ε)
    (hh : h d = Except.error e) :
    ∀ i : Nat, (∀ g ∈ pre, g d = Except.ok ()) →
      publishRun (pre ++ h :: rest) d i = (List.range' i (pre.length + 1), some e) := by
  induction pre with
  | nil =>
    intro i _
    simp [publishRun, hh, List.range']
  | cons g pre ih =>
    intro i hpre
    have hg : g d = Except.ok () := hpre g (List.mem_cons_self g pre)
    have hrec := ih i.succ (fun f hf => hpre f (List.mem_cons_of_mem g hf))
    simp [publishRun, hg, hrec, List.range']

/-- C1 (counterexample).  The claim asserts that when one handler throws
synchronously during `publish`, every other handler registered for the topic
is still invoked and `publish` returns normally.  With two handlers where the
first throws, that would mean invoked indices `[0, 1]` and no propagated
exception; in fact `MessageBus.publish` iterates with `forEach` and no
`try`/`catch`, so only handler `0` runs and the exception escapes to the
publisher. -/
theorem publish_isolation_counterexample :
    ¬ ((publish [fun _ => (Except.error "boom" : Except String Unit),
          fun _ => Except.ok ()] ()).1 = [0, 1]
       ∧ (publish [fun _ => (Except.error "boom" : Except String Unit),
          fun _ => Except.ok ()] ()).2 = none) := by
  intro hcl
  have hval : (publish [fun _ => (Except.error "boom" : Except String Unit),
      fun _ => Except.ok ()] ()).2 = some "boom" := rfl
  rw [hcl.2] at hval
  exact Option.noConfusion hval

/-- C1 (amended).  If a handler throws synchronously during
`publish(topic, payload)`, the handlers registered after it for that topic are
not invoked for that publish call and the exception propagates to the
publisher; exactly the handlers up to and including the thrower run (indices
`0 .. pre.length`). -/
theorem publish_error_stops_siblings {α ε : Type}
    (pre : List (α → Except ε Unit)) (h : α → Except ε Unit)
    (rest : List (α → Except ε Unit)) (d : α) (e : ε)
    (hpre : ∀ g ∈ pre, g d = Except.ok ()) (hh : h d = Except.error e) :
    publish (pre ++ h :: rest) d = (List.range (pre.length + 1), some e) := by
  rw [publish, publishRun_stops pre h rest d e hh 0 hpre, List.range_eq_range']

/-- C1 (witness): concrete run of `publish_error_stops_siblings` with three
handlers of which the middle one throws. -/
theorem publish_error_stops_siblings_witness :
    publish [fun _ => (Except.ok () : Except String Unit),
      fun _ => Except.error "boom", fun _ => Except.ok ()] ()
    = (List.range 2, some "boom") := by
  have hmain := publish_error_stops_siblings
    [fun _ => (Except.ok () : Except String Unit)]
    (fun _ => Except.error "boom") [fun _ => Except.ok ()] () "boom"
    (by intro g hg; rw [List.mem_singleton] at hg; rw [hg]) rfl
  exact hmain

/-- C2 (counterexample).  The claim asserts that `createTask` seeds the
history with the initial `Submitted` state and that no task ever acquires two
terminal history entries.  In fact the `A2ATask` constructor sets
`history = []` (no seeded entry), and `handleTaskComplete` calls
`task.complete` without checking the current state, so completing an
already-completed task appends a second terminal entry: the resulting history
is `[Completed, Completed]`. -/
theorem task_history_counterexample :
    (A2ATask.create "t1" "sk" () "s1" 0).history = []
    ∧ (handleTaskComplete
        (fun tid => if tid = "t1"
          then some (A2ATask.complete (A2ATask.create "t1" "sk" () "s1" 0) () 1)
          else none)
        "t1" () 2 "t1").map (fun t => t.history.map (fun e => e.state))
      = some [TaskState.completed, TaskState.completed] := by
  exact ⟨rfl, rfl⟩

/-- C2 (amended).  `createTask` produces a task in state `Submitted` whose
history is empty (the initial state is not recorded as an entry); the
transitions performed by `sendTask` append legal successor entries, so a task
returned by `sendTask` has history `[Failed]`, `[Working, Completed]` or
`[Working, Failed]`; but `complete` and `fail` (as invoked by
`handleTaskComplete`/`handleTaskFail`) append their terminal entry
unconditionally, so completing or failing an already-terminal task does add a
second terminal entry. -/
theorem task_lifecycle_amended {V : Type}
    (agentHandlers : String → Option (SkillHandler V)) (taskId skillId : String)
    (input : V) (sessionId : String) (now : Nat) :
    (A2ATask.create taskId skillId input sessionId now).state = TaskState.submitted
    ∧ (A2ATask.create taskId skillId input sessionId now).history = []
    ∧ ((sendTask agentHandlers taskId skillId input sessionId now).history.map
          (fun e => e.state) = [TaskState.failed]
       ∨ (sendTask agentHandlers taskId skillId input sessionId now).history.map
          (fun e => e.state) = [TaskState.working, TaskState.completed]
       ∨ (sendTask agentHandlers taskId skillId input sessionId now).history.map
          (fun e => e.state) = [TaskState.working, TaskState.failed])
    ∧ (∀ (t : A2ATask V) (out : V) (now2 : Nat),
        (A2ATask.complete t out now2).history
          = t.history ++ [{ state := TaskState.completed, timestamp := now2, message := none }])
    ∧ (∀ (t : A2ATask V) (err : String) (now2 : Nat),
        (A2ATask.fail t err now2).history
          = t.history ++ [{ state := TaskState.failed, timestamp := now2, message := some err }]) := by
  refine ⟨rfl, rfl, ?_, fun t out now2 => rfl, fun t err now2 => rfl⟩
  cases hh : agentHandlers skillId with
  | none =>
    left
    simp [sendTask, hh, A2ATask.fail, A2ATask.updateState, A2ATask.create]
  | some handler =>
    cases hr : handler input sessionId
        (A2ATask.updateState (A2ATask.create taskId skillId input sessionId now)
          TaskState.working now none) with
    | ok r =>
      right; left
      simp only [sendTask, hh]
      rw [hr]
      simp [A2ATask.complete, A2ATask.updateState, A2ATask.create]
    | error m =>
      right; right
      simp only [sendTask, hh]
      rw [hr]
      simp [A2ATask.fail, A2ATask.updateState, A2ATask.create]

/-- C3 (counterexample).  The claim asserts an error message of exactly
`"no handler for skill: <id>"`; the source stores
`` `No handler for skill: ${skillId}` `` with a capital `N`. -/
theorem no_handler_message_counterexample :
    (sendTask (fun _ => (none : Option (SkillHandler Unit))) "t1" "x" () "s1" 0).error
      = some "No handler for skill: x"
    ∧ (sendTask (fun _ => (none : Option (SkillHandler Unit))) "t1" "x" () "s1" 0).error
      ≠ some "no handler for skill: x" := by
  exact ⟨rfl, by decide⟩

/-- C3 (amended).  Dispatch of a task whose skill id has no registered
handler transitions the task directly from `Submitted` to `Failed` with
stored error message exactly `"No handler for skill: <id>"` (capital `N`),
and `Working` never appears in its history: the history consists of the
single entry `Failed`. -/
theorem sendTask_no_handler_fails {V : Type}
    (agentHandlers : String → Option (SkillHandler V)) (taskId skillId : String)
    (input : V) (sessionId : String) (now : Nat)
    (h : agentHandlers skillId = none) :
    (sendTask agentHandlers taskId skillId input sessionId now).state = TaskState.failed
    ∧ (sendTask agentHandlers taskId skillId input sessionId now).error
      = some (String.append "No handler for skill: " skillId)
    ∧ (sendTask agentHandlers taskId skillId input sessionId now).history.map
        (fun e => e.state) = [TaskState.failed] := by
  simp [sendTask, h, A2ATask.fail, A2ATask.updateState, A2ATask.create]

/-- C3 (witness): concrete run of `sendTask_no_handler_fails` with an empty
handler registry and skill id `"x"`. -/
theorem sendTask_no_handler_fails_witness :
    (sendTask (fun _ => (none : Option (SkillHandler Unit))) "t1" "x" () "s1" 0).state
      = TaskState.failed
    ∧ (sendTask (fun _ => (none : Option (SkillHandler Unit))) "t1" "x" () "s1" 0).error
      = some (String.append "No handler for skill: " "x")
    ∧ (sendTask (fun _ => (none : Option (SkillHandler Unit))) "t1" "x" () "s1" 0).history.map
        (fun e => e.state) = [TaskState.failed] :=
  sendTask_no_handler_fails (fun _ => none) "t1" "x" () "s1" 0 rfl

/-- C4 (counterexample).  The claim asserts that an unknown task id yields
JSON-RPC error code `-32002`.  In fact the REST mirror
`GET /api/a2a/tasks/:taskId` answers with `-32001` (the code the claim says
is reserved for agent/provider not found) and the RPC method `tasks/get`
answers with `-32603`; neither is `-32002`. -/
theorem task_not_found_code_counterexample :
    apiGetTaskEndpoint (fun _ => (none : Option (A2ATask Unit))) "missing"
      = Except.error (-32001, "Task not found")
    ∧ rpcTasksGet (fun _ => (none : Option (A2ATask Unit))) "missing"
      = Except.error (-32603, "Task not found")
    ∧ ((-32001 : Int) ≠ (-32002 : Int))
    ∧ ((-32603 : Int) ≠ (-32002 : Int)) := by
  exact ⟨rfl, rfl, by decide, by decide⟩

/-- C4 (amended).  For every `tasks/get` request whose task id does not name
an existing task, the REST mirror answers with error code `-32001` and
message `"Task not found"` — the same `-32001` the agent-card endpoint uses
for an unknown agent — while the RPC endpoint answers with `-32603`
(internal error); code `-32002` is never emitted. -/
theorem task_not_found_codes {V C : Type} (tasks : String → Option (A2ATask V))
    (taskId : String) (agents : String → Option C) (agentId : String)
    (ht : tasks taskId = none) (ha : agents agentId = none) :
    apiGetTaskEndpoint tasks taskId = Except.error (-32001, "Task not found")
    ∧ rpcTasksGet tasks taskId = Except.error (-32603, "Task not found")
    ∧ apiGetAgentEndpoint agents agentId = Except.error (-32001, "Agent not found") := by
  simp [apiGetTaskEndpoint, rpcTasksGet, apiGetAgentEndpoint, ht, ha]

/-- C4 (witness): concrete run of `task_not_found_codes` on empty task and
agent registries. -/
theorem task_not_found_codes_witness :
    apiGetTaskEndpoint (fun _ => (none : Option (A2ATask Unit))) "missing"
      = Except.error (-32001, "Task not found")
    ∧ rpcTasksGet (fun _ => (none : Option (A2ATask Unit))) "missing"
      = Except.error (-32603, "Task not found")
    ∧ apiGetAgentEndpoint (fun _ => (none : Option Unit)) "ghost"
      = Except.error (-32001, "Agent not found") :=
  task_not_found_codes (fun _ => none) "missing" (fun _ => none) "ghost" rfl rfl

/-- C5.  Every `tasks/send` invocation returns a fully resolved task: its
state is terminal (`Completed` or `Failed`), never `Submitted` or `Working` —
whether or not a handler is registered for the skill; and a handler error is
caught and yields a `Failed` task carrying the error's message. -/
theorem sendTask_terminal {V : Type}
    (agentHandlers : String → Option (SkillHandler V)) (taskId skillId : String)
    (input : V) (sessionId : String) (now : Nat) :
    ((sendTask agentHandlers taskId skillId input sessionId now).state = TaskState.completed
     ∨ (sendTask agentHandlers taskId skillId input sessionId now).state = TaskState.failed)
    ∧ (∀ handler, agentHandlers skillId = some handler →
        ∀ msg, handler input sessionId
            (A2ATask.updateState (A2ATask.create taskId skillId input sessionId now)
              TaskState.working now none) = Except.error msg →
          (sendTask agentHandlers taskId skillId input sessionId now).state = TaskState.failed
          ∧ (sendTask agentHandlers taskId skillId input sessionId now).error = some msg) := by
  constructor
  · cases hh : agentHandlers skillId with
    | none =>
      right
      simp [sendTask, hh, A2ATask.fail, A2ATask.updateState]
    | some handler =>
      cases hr : handler input sessionId
          (A2ATask.updateState (A2ATask.create taskId skillId input sessionId now)
            TaskState.working now none) with
      | ok r =>
        left
        simp only [sendTask, hh]
        rw [hr]
        simp [A2ATask.complete, A2ATask.updateState]
      | error m =>
        right
        simp only [sendTask, hh]
        rw [hr]
        simp [A2ATask.fail, A2ATask.updateState]
  · intro handler hh msg hmsg
    simp only [sendTask, hh]
    rw [hmsg]
    simp [A2ATask.fail, A2ATask.updateState]

/-- C5 (witness): concrete run of `sendTask_terminal` with a registered
handler that throws `"boom"`: the returned task is `Failed` with error
`"boom"`. -/
theorem sendTask_terminal_witness :
    (sendTask (fun _ => some (fun _ _ _ => Except.error "boom")
        : String → Option (SkillHandler Unit)) "t1" "sk" () "s1" 0).state
      = TaskState.failed
    ∧ (sendTask (fun _ => some (fun _ _ _ => Except.error "boom")
        : String → Option (SkillHandler Unit)) "t1" "sk" () "s1" 0).error
      = some "boom" :=
  (sendTask_terminal (fun _ => some (fun _ _ _ => Except.error "boom"))
    "t1" "sk" () "s1" 0).2 (fun _ _ _ => Except.error "boom") rfl "boom" rfl

/-- C6.  A flush of a session's audio buffer (a `processAudio` call that is
not re-entrant, i.e. `isProcessing` is clear) swaps the buffer out and leaves
it cleared, and emits exactly one utterance — the concatenation of all
buffered frames in arrival order — if and only if the flushed buffer exceeds
the minimum byte-length floor of 3199 bytes (the source discards buffers with
`length < 3200`); a buffer at or below 3199 bytes is silently discarded with
no event. -/
theorem processAudio_flush (st : SpeechSessionState) (h : st.isProcessing = false) :
    (processAudio st).1.audioBuffer = []
    ∧ (processAudio st).2
      = if 3199 < st.audioBuffer.flatten.length then some st.audioBuffer.flatten else none := by
  by_cases hlen : st.audioBuffer.length = 0
  · have hbuf : st.audioBuffer = [] := List.length_eq_zero.mp hlen
    simp [processAudio, h, hbuf]
  · have hsum : st.audioBuffer.flatten.length = (List.map List.length st.audioBuffer).sum := by
      simp
    by_cases hfl : (List.map List.length st.audioBuffer).sum < 3200
    · have hnot : ¬ 3199 < (List.map List.length st.audioBuffer).sum := by omega
      simp [processAudio, h, hlen, hsum, hfl, hnot]
    · have hyes : 3199 < (List.map List.length st.audioBuffer).sum := by omega
      simp [processAudio, h, hlen, hsum, hfl, hyes]

/-- C6 (witness): concrete run of `processAudio_flush` on a session holding a
single 3200-byte frame. -/
theorem processAudio_flush_witness :
    (processAudio { isProcessing := false, audioBuffer := [List.replicate 3200 7] }).1.audioBuffer = []
    ∧ (processAudio { isProcessing := false, audioBuffer := [List.replicate 3200 7] }).2
      = if 3199 < ([List.replicate (3200 : Nat) (7 : Nat)] : List (List Nat)).flatten.length
        then some ([List.replicate (3200 : Nat) (7 : Nat)] : List (List Nat)).flatten
        else none :=
  processAudio_flush { isProcessing := false, audioBuffer := [List.replicate 3200 7] } rfl

/-- Helper: no call sequence splits an empty list around a `lock`. -/
theorem unmatchedLock_nil (s : String) : ¬ unmatchedLock s [] := by
  rintro ⟨pre, post, heq, -⟩
  have hlen := congrArg List.length heq
  simp at hlen
  omega

/-- Helper: peeling one call off an `unmatchedLock` split. -/
theorem unmatchedLock_cons (s : String) (op : GateOp) (ops : List GateOp) :
    unmatchedLock s (op :: ops)
    ↔ ((op = GateOp.lock s ∧ ∀ now, GateOp.unlock s now ∉ ops) ∨ unmatchedLock s ops) := by
  constructor
  · rintro ⟨pre, post, heq, hpost⟩
    cases pre with
    | nil =>
      rw [List.nil_append, List.cons.injEq] at heq
      exact Or.inl ⟨heq.1, heq.2 ▸ hpost⟩
    | cons a pre2 =>
      rw [List.cons_append, List.cons.injEq] at heq
      exact Or.inr ⟨pre2, post, heq.2, hpost⟩
  · rintro (⟨rfl, hno⟩ | ⟨pre, post, rfl, hpost⟩)
    · exact ⟨[], ops, rfl, hno⟩
    · exact ⟨op :: pre, post, rfl, hpost⟩

/-- Helper: locking a session makes `canRespond` false for it. -/
theorem canRespond_lock_self (rm : ResponseManagerState) (s : String) :
    canRespond s (rm.lock s) = false := by
  simp [canRespond, ResponseManagerState.lock]

/-- Helper: locking a different session leaves `canRespond` unchanged. -/
theorem canRespond_lock_ne (rm : ResponseManagerState) (s t : String) (h : s ≠ t) :
    canRespond s (rm.lock t) = canRespond s rm := by
  simp [canRespond, ResponseManagerState.lock, h]

/-- Helper: unlocking a session makes `canRespond` true for it. -/
theorem canRespond_unlock_self (rm : ResponseManagerState) (s : String) (now : Nat) :
    canRespond s (rm.unlock s now) = true := by
  simp [canRespond, ResponseManagerState.unlock]

/-- Helper: unlocking a different session leaves `canRespond` unchanged. -/
theorem canRespond_unlock_ne (rm : ResponseManagerState) (s t : String) (now : Nat)
    (h : s ≠ t) :
    canRespond s (rm.unlock t now) = canRespond s rm := by
  simp [canRespond, ResponseManagerState.unlock, h]

/-- Helper: characterization of `canRespond` after folding a call sequence
over an arbitrary starting state. -/
theorem foldl_canRespond_char (s : String) :
    ∀ (ops : List GateOp) (rm : ResponseManagerState),
      (canRespond s (ops.foldl GateOp.apply rm) = false
      ↔ (unmatchedLock s ops
         ∨ (canRespond s rm = false ∧ ∀ now, GateOp.unlock s now ∉ ops))) := by
  intro ops
  induction ops with
  | nil =>
    intro rm
    simp [unmatchedLock_nil s]
  | cons op ops ih =>
    intro rm
    rw [List.foldl_cons, ih (GateOp.apply rm op), unmatchedLock_cons]
    cases op with
    | lock t =>
      by_cases hst : t = s
      · subst t
        rw [show GateOp.apply rm (GateOp.lock s) = rm.lock s from rfl,
          canRespond_lock_self rm s]
        constructor
        · rintro (hu | ⟨-, hno⟩)
          · exact Or.inl (Or.inr hu)
          · exact Or.inl (Or.inl ⟨rfl, hno⟩)
        · rintro ((⟨-, hno⟩ | hu) | ⟨-, hno⟩)
          · exact Or.inr ⟨rfl, hno⟩
          · exact Or.inl hu
          · exact Or.inr ⟨rfl, fun now hmem => hno now (List.mem_cons_of_mem _ hmem)⟩
      · have hne : s ≠ t := fun he => hst he.symm
        rw [show GateOp.apply rm (GateOp.lock t) = rm.lock t from rfl,
          canRespond_lock_ne rm s t hne]
        constructor
        · rintro (hu | ⟨hc, hno⟩)
          · exact Or.inl (Or.inr hu)
          · refine Or.inr ⟨hc, fun now hmem => ?_⟩
            rcases List.mem_cons.mp hmem with heq | hmem2
            · exact GateOp.noConfusion heq
            · exact hno now hmem2
        · rintro ((⟨heq, -⟩ | hu) | ⟨hc, hno⟩)
          · exact absurd (GateOp.lock.inj heq) hst
          · exact Or.inl hu
          · exact Or.inr ⟨hc, fun now hmem => hno now (List.mem_cons_of_mem _ hmem)⟩
    | unlock t now0 =>
      by_cases hst : t = s
      · subst t
        rw [show GateOp.apply rm (GateOp.unlock s now0) = rm.unlock s now0 from rfl,
          canRespond_unlock_self rm s now0]
        constructor
        · rintro (hu | ⟨habs, -⟩)
          · exact Or.inl (Or.inr hu)
          · exact Bool.noConfusion habs
        · rintro ((⟨habs, -⟩ | hu) | ⟨-, hno⟩)
          · exact GateOp.noConfusion habs
          · exact Or.inl hu
          · exact absurd (List.mem_cons_self _ _) (hno now0)
      · have hne : s ≠ t := fun he => hst he.symm
        rw [show GateOp.apply rm (GateOp.unlock t now0) = rm.unlock t now0 from rfl,
          canRespond_unlock_ne rm s t now0 hne]
        constructor
        · rintro (hu | ⟨hc, hno⟩)
          · exact Or.inl (Or.inr hu)
          · refine Or.inr ⟨hc, fun now hmem => ?_⟩
            rcases List.mem_cons.mp hmem with heq | hmem2
            · exact hst ((GateOp.unlock.inj heq).1.symm)
            · exact hno now hmem2
        · rintro ((⟨habs, -⟩ | hu) | ⟨hc, hno⟩)
          · exact GateOp.noConfusion habs
          · exact Or.inl hu
          · exact Or.inr ⟨hc, fun now hmem => hno now (List.mem_cons_of_mem _ hmem)⟩

/-- C7.  For every session `s` and every sequence of `lock`/`unlock` calls
starting from the freshly constructed manager, `canRespond(s)` is false if
and only if some prior `lock(s)` has no matching `unlock(s)` yet (the
sequence splits as `pre ++ lock s :: post` with no `unlock s` in `post`);
in particular a session with no entry — never locked, or already unlocked —
has `canRespond(s) = true`. -/
theorem canRespond_false_iff_unmatchedLock (s : String) (ops : List GateOp) :
    canRespond s (runGateOps ops) = false ↔ unmatchedLock s ops := by
  rw [runGateOps, foldl_canRespond_char s ops ResponseManagerState.init]
  have hinit : canRespond s ResponseManagerState.init = true := rfl
  simp [hinit]

/-- C8.  `shouldDebounce(s, minGapMillis)` returns false when no prior unlock
has been recorded for `s`, and when an unlock was recorded at a (positive,
as every `Date.now()` value is) timestamp `t` it returns true if and only if
the elapsed time `now - t` is strictly less than `minGapMillis`. -/
theorem shouldDebounce_char (rm : ResponseManagerState) (s : String) (now : Nat)
    (gap : Int) :
    (rm.lastResponseTime s = none → shouldDebounce s gap now rm = false)
    ∧ (∀ t : Nat, rm.lastResponseTime s = some t → 0 < t →
        (shouldDebounce s gap now rm = true ↔ ((now : Int) - (t : Int) < gap))) := by
  constructor
  · intro h
    simp [shouldDebounce, h]
  · intro t ht hpos
    have htne : t ≠ 0 := Nat.pos_iff_ne_zero.mp hpos
    simp [shouldDebounce, ht, htne]

/-- C8 (witness): concrete runs of `shouldDebounce_char` — a session unlocked
at time 5 debounces at time 6 with a 2000ms gap, and a session with no
recorded unlock does not. -/
theorem shouldDebounce_char_witness :
    shouldDebounce "s1" 2000 6
      { pendingResponses := fun _ => none
        lastResponseTime := fun sid => if sid = "s1" then some 5 else none } = true
    ∧ shouldDebounce "s2" 2000 6
      { pendingResponses := fun _ => none
        lastResponseTime := fun sid => if sid = "s1" then some 5 else none } = false :=
  ⟨((shouldDebounce_char
      { pendingResponses := fun _ => none
        lastResponseTime := fun sid => if sid = "s1" then some 5 else none }
      "s1" 6 2000).2 5 rfl (by decide)).mpr (by decide),
   (shouldDebounce_char
      { pendingResponses := fun _ => none
        lastResponseTime := fun sid => if sid = "s1" then some 5 else none }
      "s2" 6 2000).1 rfl⟩

/-- C10.  `unlock(s)` is total and unconditional: even when no `lock(s)`
preceded it, it removes any pending entry (so `canRespond(s)` is true
immediately afterward) and records the current (positive) time as the
last-unlock timestamp, so that `shouldDebounce(s, g)` subsequently returns
true exactly while the elapsed time since that unlock is below `g`. -/
theorem unlock_unconditional (rm : ResponseManagerState) (s : String) (now : Nat)
    (hnow : 0 < now) :
    canRespond s (rm.unlock s now) = true
    ∧ (rm.unlock s now).lastResponseTime s = some now
    ∧ ∀ (now2 : Nat) (gap : Int),
        (shouldDebounce s gap now2 (rm.unlock s now) = true
         ↔ ((now2 : Int) - (now : Int) < gap)) := by
  refine ⟨canRespond_unlock_self rm s now, by simp [ResponseManagerState.unlock], ?_⟩
  intro now2 gap
  have hne : now ≠ 0 := Nat.pos_iff_ne_zero.mp hnow
  simp [shouldDebounce, ResponseManagerState.unlock, hne]

/-- C10 (witness): concrete run of `unlock_unconditional` on the freshly
constructed manager (never locked): after `unlock("s1")` at time 5,
`canRespond` is true and `shouldDebounce` with a 2000ms gap fires at
time 7. -/
theorem unlock_unconditional_witness :
    canRespond "s1" (ResponseManagerState.init.unlock "s1" 5) = true
    ∧ shouldDebounce "s1" 2000 7 (ResponseManagerState.init.unlock "s1" 5) = true :=
  ⟨(unlock_unconditional ResponseManagerState.init "s1" 5 (by decide)).1,
   ((unlock_unconditional ResponseManagerState.init "s1" 5 (by decide)).2.2 7 2000).mpr
    (by decide)⟩

/-- Helper: `sumSquares` over a constant frame. -/
theorem sumSquares_replicate (n : Nat) (a : ℤ) :
    sumSquares (List.replicate n a) = n * (a * a) := by
  simp [sumSquares, List.map_replicate, List.sum_replicate, nsmul_eq_mul]

/-- Helper: a per-sample bound on the squares bounds `sumSquares`. -/
theorem sumSquares_le (samples : List ℤ) (B : ℤ) (h : ∀ s ∈ samples, s * s ≤ B) :
    sumSquares samples ≤ samples.length * B := by
  induction samples with
  | nil => simp [sumSquares]
  | cons a rest ih =>
    have ha : a * a ≤ B := h a (List.mem_cons_self _ _)
    have hr : sumSquares rest ≤ rest.length * B :=
      ih (fun s hs => h s (List.mem_cons_of_mem _ hs))
    have hrw : sumSquares (a :: rest) = a * a + sumSquares rest := by
      simp [sumSquares]
    have hlen : (((a :: rest).length : Nat) : ℤ) * B = (rest.length : ℤ) * B + B := by
      push_cast [List.length_cons]
      ring
    rw [hrw, hlen]
    linarith

/-- C9.  The energy level of an audio frame is
`sqrt(mean(sample²)) / 32768` over its 16-bit signed samples: a frame of
all-zero samples has energy exactly `0`, a (nonempty) frame of all-max
samples `32767` has energy exactly `32767 / 32768`, which is within `1/1000`
of `1`, and for any frame of in-range 16-bit samples the energy lies in
`[0, 1]`. -/
theorem calculateAudioLevel_char :
    (∀ n : Nat, calculateAudioLevel (List.replicate n 0) = 0)
    ∧ (∀ n : Nat, 0 < n →
        calculateAudioLevel (List.replicate n 32767) = 32767 / 32768
        ∧ |calculateAudioLevel (List.replicate n 32767) - 1| < 1 / 1000)
    ∧ (∀ samples : List ℤ, (∀ s ∈ samples, -32768 ≤ s ∧ s ≤ 32767) →
        0 ≤ calculateAudioLevel samples ∧ calculateAudioLevel samples ≤ 1) := by
  refine ⟨?_, ?_, ?_⟩
  · intro n
    have h0 : sumSquares (List.replicate n 0) = 0 := by
      rw [sumSquares_replicate]
      ring
    simp [calculateAudioLevel, h0]
  · intro n hn
    have hs : sumSquares (List.replicate n 32767) = (n : ℤ) * (32767 * 32767) :=
      sumSquares_replicate n 32767
    have hnR : ((n : ℕ) : ℝ) ≠ 0 := Nat.cast_ne_zero.mpr (Nat.pos_iff_ne_zero.mp hn)
    have hmean : ((sumSquares (List.replicate n 32767) : ℤ) : ℝ)
        / ((List.replicate n (32767 : ℤ)).length : ℝ) = 32767 * 32767 := by
      rw [hs, List.length_replicate]
      push_cast
      rw [mul_comm, mul_div_assoc, div_self hnR, mul_one]
      norm_num
    have hsqrt : Real.sqrt (32767 * 32767) = 32767 := by
      rw [show (32767 : ℝ) * 32767 = 32767 ^ 2 by ring]
      exact Real.sqrt_sq (by norm_num)
    have heq : calculateAudioLevel (List.replicate n 32767) = 32767 / 32768 := by
      rw [calculateAudioLevel, hmean, hsqrt]
    refine ⟨heq, ?_⟩
    have hdiff : (32767 : ℝ) / 32768 - 1 = -(1 / 32768) := by norm_num
    rw [heq, hdiff, abs_neg, abs_of_nonneg (by norm_num : (0 : ℝ) ≤ 1 / 32768)]
    norm_num
  · intro samples hbound
    constructor
    · exact div_nonneg (Real.sqrt_nonneg _) (by norm_num)
    · by_cases hnil : samples = []
      · subst hnil
        have hz : sumSquares ([] : List ℤ) = 0 := rfl
        simp [calculateAudioLevel, hz]
      · have hlenpos : 0 < (samples.length : ℝ) := by
          have hp : 0 < samples.length := List.length_pos.mpr hnil
          exact_mod_cast hp
        have hsq : ∀ s ∈ samples, s * s ≤ (32768 : ℤ) * 32768 := by
          intro s hs
          obtain ⟨h1, h2⟩ := hbound s hs
          nlinarith
        have hsum_le : sumSquares samples ≤ samples.length * (32768 * 32768) :=
          sumSquares_le samples (32768 * 32768) hsq
        have hmean_le : ((sumSquares samples : ℤ) : ℝ) / (samples.length : ℝ)
            ≤ 32768 * 32768 := by
          rw [div_le_iff₀ hlenpos]
          have hc : ((sumSquares samples : ℤ) : ℝ)
              ≤ (((samples.length : ℤ) * (32768 * 32768) : ℤ) : ℝ) := by
            exact_mod_cast hsum_le
          calc ((sumSquares samples : ℤ) : ℝ)
              ≤ (((samples.length : ℤ) * (32768 * 32768) : ℤ) : ℝ) := hc
            _ = 32768 * 32768 * (samples.length : ℝ) := by push_cast; ring
        have hsqrt_le : Real.sqrt (((sumSquares samples : ℤ) : ℝ) / (samples.length : ℝ))
            ≤ 32768 := by
          have h32 : Real.sqrt (32768 * 32768) = 32768 := by
            rw [show (32768 : ℝ) * 32768 = 32768 ^ 2 by ring]
            exact Real.sqrt_sq (by norm_num)
          calc Real.sqrt (((sumSquares samples : ℤ) : ℝ) / (samples.length : ℝ))
              ≤ Real.sqrt (32768 * 32768) := Real.sqrt_le_sqrt hmean_le
            _ = 32768 := h32
        rw [calculateAudioLevel, div_le_one (by norm_num : (0 : ℝ) < 32768)]
        exact hsqrt_le

/-- C9 (witness): concrete runs of `calculateAudioLevel_char` — a 2-sample
zero frame, a 2-sample all-max frame, and an in-range mixed frame. -/
theorem calculateAudioLevel_char_witness :
    calculateAudioLevel (List.replicate 2 0) = 0
    ∧ calculateAudioLevel (List.replicate 2 32767) = 32767 / 32768
    ∧ |calculateAudioLevel (List.replicate 2 32767) - 1| < 1 / 1000
    ∧ 0 ≤ calculateAudioLevel [100, -200]
    ∧ calculateAudioLevel [100, -200] ≤ 1 :=
  ⟨calculateAudioLevel_char.1 2,
   (calculateAudioLevel_char.2.1 2 (by decide)).1,
   (calculateAudioLevel_char.2.1 2 (by decide)).2,
   (calculateAudioLevel_char.2.2 [100, -200] (by decide)).1,
   (calculateAudioLevel_char.2.2 [100, -200] (by decide)).2⟩

end MusicBuddy
